import Mathlib

/-!
# Stevebot misting scheduler: shallow embedding and verification

This file embeds the scheduling core of the stevebot firmware
(`src/MistingScheduler.{h,cpp}` in its epoch-based generation, together
with `GPIORelayController.h`, `NVSStateStorage.cpp` and the serial
command dispatch in `main.cpp`) as executable Lean definitions, and
proves properties of the embedded code.

Modelling conventions:
* `unsigned long` (32-bit on the target) is modelled as `Nat` with
  explicit reduction `% 2^32`; the wrapping subtraction
  `getMillis() - mistStartTime` is `sub32`.
* `time_t` is modelled as `Int` (a mathematical signed integer; epoch
  values in this system are small enough that 64-bit overflow never
  occurs).
* The three collaborators are modelled as data: the clock is a record
  of the values its three getters return during one call into the core
  (single-threaded, sub-millisecond reads), the actuator is a boolean
  output level plus a trace of `turnOn`/`turnOff` calls, and the
  persistent store is a trace of `save` calls plus, for reads, the
  record of values the store getters return.
* `log(...)` calls append a `LogEvent` identifying the call site.
-/

namespace Stevebot

/-- `MisterState` enum from `src/MistingScheduler.h`. -/
inductive MisterState
  | WAITING_SYNC
  | IDLE
  | MISTING
deriving DecidableEq, Repr

/-- One reading of the `ITimeProvider` collaborator: the values returned
by `getTime` (availability flag and `tm_hour`), `getMillis`, and
`getEpochTime` during a single call into the scheduler. -/
structure Clock where
  timeAvail : Bool
  hour : Int
  millis : Nat
  epoch : Int
deriving DecidableEq, Repr

/-- A call on the `IRelayController` collaborator. -/
inductive RelayCall
  | callOn
  | callOff
deriving DecidableEq, Repr

/-- The argument triple of one `IStateStorage::save` call
(`lastMistTime : unsigned long`, `hasEverMisted`, `enabled`). -/
structure StorageWrite where
  lastMistTime : Nat
  hasEverMisted : Bool
  enabled : Bool
deriving DecidableEq, Repr

/-- The values returned by the three `IStateStorage` getters during one
`loadState()` call. -/
structure StoreReads where
  lastMistTime : Nat
  hasEverMisted : Bool
  enabled : Bool
deriving DecidableEq, Repr

/-- One `log(...)` call site of `MistingScheduler.cpp` (epoch-based
generation); the events stand for the literal message strings. -/
inductive LogEvent
  | timeJumpWarning (delta : Int)
  | mistStart
  | mistStop
  | criticalFailsafe
  | loadedNVS
  | schedEnabledToIdle
  | schedEnabledWaitingSync
  | schedEnabled
  | schedDisabled
  | errAlreadyMisting
  | errDisabledForce
  | forceMistCmd
deriving DecidableEq, Repr

/-- The scheduler object state (`MistingScheduler` fields) together with
the observable effect traces on its collaborators: the relay output
level, the list of relay calls, the list of storage writes, and the log.
`hasStorage` models `stateStorage != nullptr`. -/
structure Sched where
  currentState : MisterState
  lastMistEpoch : Int
  lastKnownEpoch : Int
  mistStartTime : Nat
  hasEverMisted : Bool
  schedulerEnabled : Bool
  hasStorage : Bool
  relayOn : Bool
  relayCalls : List RelayCall
  storageWrites : List StorageWrite
  logs : List LogEvent
deriving DecidableEq, Repr

/-- `MIST_DURATION = 25000` ms. -/
def MIST_DURATION : Nat := 25000

/-- `MIST_INTERVAL_SECONDS = 7200` s. -/
def MIST_INTERVAL_SECONDS : Int := 7200

/-- `ACTIVE_WINDOW_START = 9`. -/
def ACTIVE_WINDOW_START : Int := 9

/-- `ACTIVE_WINDOW_END = 18` (exclusive). -/
def ACTIVE_WINDOW_END : Int := 18

/-- Reduction of a value to the range of a 32-bit `unsigned long`. -/
def m32 (n : Nat) : Nat := n % 2 ^ 32

/-- Wrapping 32-bit subtraction, the value of `a - b` in `unsigned long`
arithmetic. -/
def sub32 (a b : Nat) : Nat := (m32 a + (2 ^ 32 - m32 b)) % 2 ^ 32

/-- `MistingScheduler::isInActiveWindow`: fails closed if `getTime`
reports no time, else checks `ACTIVE_WINDOW_START <= hour < ACTIVE_WINDOW_END`. -/
def isInActiveWindow (c : Clock) : Bool :=
  if !c.timeAvail then false
  else decide (ACTIVE_WINDOW_START ≤ c.hour ∧ c.hour < ACTIVE_WINDOW_END)

/-- `MistingScheduler::shouldStartMisting` (epoch-based generation):
window check, `IDLE` check, first-mist shortcut, the
`currentEpoch == 0 || lastMistEpoch == 0` time-unavailable guard, then
the epoch interval comparison. -/
def shouldStartMisting (s : Sched) (c : Clock) : Bool :=
  if !isInActiveWindow c then false
  else if s.currentState ≠ MisterState.IDLE then false
  else if !s.hasEverMisted then true
  else if c.epoch = 0 ∨ s.lastMistEpoch = 0 then false
  else decide (MIST_INTERVAL_SECONDS ≤ c.epoch - s.lastMistEpoch)

/-- `MistingScheduler::startMisting`: relay on, record `mistStartTime`
(uptime ms) and `lastMistEpoch` (epoch s), go `MISTING`, set
`hasEverMisted`, log `MIST START`; the code deliberately does NOT save
here ("save only on successful completion"). -/
def startMisting (s : Sched) (c : Clock) : Sched :=
  { s with relayOn := true,
           relayCalls := s.relayCalls ++ [RelayCall.callOn],
           mistStartTime := m32 c.millis,
           lastMistEpoch := c.epoch,
           currentState := MisterState.MISTING,
           hasEverMisted := true,
           logs := s.logs ++ [LogEvent.mistStart] }

/-- The argument triple `((unsigned long)lastMistEpoch, hasEverMisted,
schedulerEnabled)` that `saveState` passes to `IStateStorage::save`. -/
def saveRecord (s : Sched) : StorageWrite :=
  { lastMistTime := (s.lastMistEpoch % (2 ^ 32 : Int)).toNat,
    hasEverMisted := s.hasEverMisted,
    enabled := s.schedulerEnabled }

/-- `MistingScheduler::saveState`: no-op without a storage backend, else
one `save` call. -/
def saveState (s : Sched) : Sched :=
  if s.hasStorage then
    { s with storageWrites := s.storageWrites ++ [saveRecord s] }
  else s

/-- `MistingScheduler::stopMisting`: relay off, go `IDLE`, log
`MIST STOP`, then save state ("single write per cycle"). -/
def stopMisting (s : Sched) : Sched :=
  saveState { s with relayOn := false,
                     relayCalls := s.relayCalls ++ [RelayCall.callOff],
                     currentState := MisterState.IDLE,
                     logs := s.logs ++ [LogEvent.mistStop] }

/-- The log lines emitted by the time-jump detection block at the top of
`update()`: a warning when both epochs are positive and their absolute
difference exceeds 300 s. -/
def timeJumpEvents (s : Sched) (c : Clock) : List LogEvent :=
  if 0 < s.lastKnownEpoch ∧ 0 < c.epoch then
    let timeDelta : Int :=
      if s.lastKnownEpoch < c.epoch then c.epoch - s.lastKnownEpoch
      else s.lastKnownEpoch - c.epoch
    if 300 < timeDelta then [LogEvent.timeJumpWarning timeDelta] else []
  else []

/-- `MistingScheduler::update` (epoch-based generation): early return
when disabled; time-jump detection and `lastKnownEpoch` refresh; then
the state switch.  `WAITING_SYNC` falls through into the `IDLE` check
after transitioning.  In `MISTING`, the code tests
`elapsed >= MIST_DURATION` FIRST and only in its else-branch tests
`elapsed >= MIST_DURATION * 3` (the failsafe), exactly as written in the
source. -/
def update (s : Sched) (c : Clock) : Sched :=
  if !s.schedulerEnabled then s
  else
    let s1 : Sched := { s with logs := s.logs ++ timeJumpEvents s c,
                               lastKnownEpoch := c.epoch }
    match s1.currentState with
    | MisterState.WAITING_SYNC =>
        if c.timeAvail then
          let s2 : Sched := { s1 with currentState := MisterState.IDLE }
          if shouldStartMisting s2 c then startMisting s2 c else s2
        else s1
    | MisterState.IDLE =>
        if shouldStartMisting s1 c then startMisting s1 c else s1
    | MisterState.MISTING =>
        let elapsed := sub32 c.millis s1.mistStartTime
        if MIST_DURATION ≤ elapsed then stopMisting s1
        else if MIST_DURATION * 3 ≤ elapsed then
          { s1 with logs := s1.logs ++ [LogEvent.criticalFailsafe],
                    relayOn := false,
                    relayCalls := s1.relayCalls ++ [RelayCall.callOff],
                    currentState := MisterState.IDLE }
        else s1

/-- `MistingScheduler::setEnabled`: store the flag; if enabling while in
`WAITING_SYNC` and the clock is now available, transition to `IDLE` and
reset `lastMistEpoch` to 0; log the corresponding line; always save. -/
def setEnabled (s : Sched) (c : Clock) (b : Bool) : Sched :=
  let s1 : Sched := { s with schedulerEnabled := b }
  saveState <|
    if b = true ∧ s1.currentState = MisterState.WAITING_SYNC then
      if c.timeAvail then
        { s1 with currentState := MisterState.IDLE,
                  lastMistEpoch := 0,
                  logs := s1.logs ++ [LogEvent.schedEnabledToIdle] }
      else { s1 with logs := s1.logs ++ [LogEvent.schedEnabledWaitingSync] }
    else if b then { s1 with logs := s1.logs ++ [LogEvent.schedEnabled] }
    else { s1 with logs := s1.logs ++ [LogEvent.schedDisabled] }

/-- `MistingScheduler::forceMist`: rejected with only a log line when
already `MISTING` or when disabled; otherwise logs `FORCE MIST` and runs
`startMisting`. -/
def forceMist (s : Sched) (c : Clock) : Sched :=
  if s.currentState = MisterState.MISTING then
    { s with logs := s.logs ++ [LogEvent.errAlreadyMisting] }
  else if !s.schedulerEnabled then
    { s with logs := s.logs ++ [LogEvent.errDisabledForce] }
  else startMisting { s with logs := s.logs ++ [LogEvent.forceMistCmd] } c

/-- `MistingScheduler::loadState`: no-op without a storage backend, else
adopt the three values returned by the store getters (`lastMistTime`
cast to `time_t`), logging only when the loaded epoch is positive. -/
def loadState (s : Sched) (d : StoreReads) : Sched :=
  if s.hasStorage then
    let s1 : Sched := { s with lastMistEpoch := (d.lastMistTime : Int),
                               hasEverMisted := d.hasEverMisted,
                               schedulerEnabled := d.enabled }
    if 0 < s1.lastMistEpoch then { s1 with logs := s1.logs ++ [LogEvent.loadedNVS] }
    else s1
  else s

/-- The NVS key-value namespace backing `NVSStateStorage`
(`Preferences`): whether `preferences.begin` succeeds, and the stored
value (if any) under each of the three keys. -/
structure NVS where
  openOk : Bool
  lastMist : Option Nat
  hasEverM : Option Bool
  enabledV : Option Bool
deriving DecidableEq, Repr

/-- `NVSStateStorage::getLastMistTime`: 0 when the namespace fails to
open, else `getULong(key, 0)`. -/
def NVS.getLastMistTime (n : NVS) : Nat :=
  if !n.openOk then 0 else n.lastMist.getD 0

/-- `NVSStateStorage::getHasEverMisted`: false when the namespace fails
to open, else `getBool(key, false)`. -/
def NVS.getHasEverMisted (n : NVS) : Bool :=
  if !n.openOk then false else n.hasEverM.getD false

/-- `NVSStateStorage::getEnabled`: true ("default to enabled if NVS
fails") when the namespace fails to open, else `getBool(key, true)`. -/
def NVS.getEnabled (n : NVS) : Bool :=
  if !n.openOk then true else n.enabledV.getD true

/-- The triple of values `loadState()` receives when backed by an
`NVSStateStorage` over namespace content `n`. -/
def NVS.storeReads (n : NVS) : StoreReads :=
  { lastMistTime := n.getLastMistTime,
    hasEverMisted := n.getHasEverMisted,
    enabled := n.getEnabled }

/-- The system state right after process start: the
`GPIORelayController` constructor drives the relay pin LOW
("Safety: OFF on construction") and the `MistingScheduler` constructor
initialises its fields from its member-initialiser list.  Neither
constructor reads the persistent store, so the state is the same for
every store content `nvs`. -/
def bootSched (hasStorage : Bool) (nvs : NVS) : Sched :=
  { currentState := MisterState.WAITING_SYNC,
    lastMistEpoch := 0,
    lastKnownEpoch := 0,
    mistStartTime := 0,
    hasEverMisted := false,
    schedulerEnabled := true,
    hasStorage := hasStorage,
    relayOn := false,
    relayCalls := [],
    storageWrites := [],
    logs := [] }

/-- One call into the scheduler core made by the host loop or the serial
command surface. -/
inductive Op
  | opUpdate (c : Clock)
  | opSetEnabled (c : Clock) (b : Bool)
  | opForceMist (c : Clock)
  | opLoadState (d : StoreReads)

/-- Apply one core call. -/
def applyOp (s : Sched) : Op → Sched
  | Op.opUpdate c => update s c
  | Op.opSetEnabled c b => setEnabled s c b
  | Op.opForceMist c => forceMist s c
  | Op.opLoadState d => loadState s d

/-- Run a sequence of core calls. -/
def run (s : Sched) (ops : List Op) : Sched := ops.foldl applyOp s

end Stevebot

/-! ## Relay/state invariant -/

namespace Stevebot

/-- The actuator output level agrees with the state machine: the relay
is on exactly in state `MISTING`. -/
def relayInv (s : Sched) : Prop :=
  s.relayOn = true ↔ s.currentState = MisterState.MISTING

theorem relayInv_startMisting (s : Sched) (c : Clock) :
    relayInv (startMisting s c) := by
  simp [relayInv, startMisting]

theorem relayInv_stopMisting (s : Sched) :
    relayInv (stopMisting s) := by
  simp [relayInv, stopMisting, saveState]
  split <;> simp

theorem relayInv_update (s : Sched) (c : Clock) (h : relayInv s) :
    relayInv (update s c) := by
  unfold relayInv at h
  unfold update
  split
  · exact h
  · dsimp only
    rcases hst : s.currentState with _ | _ | _
    · rw [hst] at h
      have hoff : s.relayOn = false := by simpa using h
      simp only [hst]
      split
      · split
        · exact relayInv_startMisting _ _
        · simp [relayInv, hoff]
      · simp [relayInv, hoff]
    · rw [hst] at h
      have hoff : s.relayOn = false := by simpa using h
      simp only [hst]
      split
      · exact relayInv_startMisting _ _
      · simp [relayInv, hoff]
    · rw [hst] at h
      have hon : s.relayOn = true := by simpa using h
      simp only [hst]
      split
      · exact relayInv_stopMisting _
      · split
        · simp [relayInv]
        · simp [relayInv, hon]

end Stevebot

namespace Stevebot

@[simp] theorem saveState_currentState (s : Sched) :
    (saveState s).currentState = s.currentState := by
  unfold saveState; split <;> rfl

@[simp] theorem saveState_relayOn (s : Sched) :
    (saveState s).relayOn = s.relayOn := by
  unfold saveState; split <;> rfl

@[simp] theorem saveState_relayCalls (s : Sched) :
    (saveState s).relayCalls = s.relayCalls := by
  unfold saveState; split <;> rfl

@[simp] theorem saveState_lastMistEpoch (s : Sched) :
    (saveState s).lastMistEpoch = s.lastMistEpoch := by
  unfold saveState; split <;> rfl

@[simp] theorem saveState_hasEverMisted (s : Sched) :
    (saveState s).hasEverMisted = s.hasEverMisted := by
  unfold saveState; split <;> rfl

@[simp] theorem saveState_schedulerEnabled (s : Sched) :
    (saveState s).schedulerEnabled = s.schedulerEnabled := by
  unfold saveState; split <;> rfl

@[simp] theorem saveState_logs (s : Sched) :
    (saveState s).logs = s.logs := by
  unfold saveState; split <;> rfl

theorem saveState_storageWrites (s : Sched) :
    (saveState s).storageWrites
      = s.storageWrites ++ (if s.hasStorage then [saveRecord s] else []) := by
  unfold saveState; split <;> simp

theorem relayInv_saveState (s : Sched) (h : relayInv s) :
    relayInv (saveState s) := by
  unfold relayInv at h ⊢
  rw [saveState_relayOn, saveState_currentState]
  exact h

theorem relayInv_setEnabled (s : Sched) (c : Clock) (b : Bool)
    (h : relayInv s) : relayInv (setEnabled s c b) := by
  unfold setEnabled
  dsimp only
  apply relayInv_saveState
  unfold relayInv at h ⊢
  split
  · rename_i hcond
    rw [hcond.2] at h
    have hoff : s.relayOn = false := by simpa using h
    split <;> simp [hoff, hcond.2]
  · split <;> simpa using h

theorem relayInv_forceMist (s : Sched) (c : Clock) (h : relayInv s) :
    relayInv (forceMist s c) := by
  unfold relayInv at h ⊢
  unfold forceMist
  split
  · simpa using h
  · split
    · simpa using h
    · exact relayInv_startMisting _ _

theorem relayInv_loadState (s : Sched) (d : StoreReads) (h : relayInv s) :
    relayInv (loadState s d) := by
  unfold relayInv at h ⊢
  unfold loadState
  split
  · dsimp only
    split <;> simpa using h
  · exact h

theorem relayInv_applyOp (s : Sched) (op : Op) (h : relayInv s) :
    relayInv (applyOp s op) := by
  cases op with
  | opUpdate c => exact relayInv_update s c h
  | opSetEnabled c b => exact relayInv_setEnabled s c b h
  | opForceMist c => exact relayInv_forceMist s c h
  | opLoadState d => exact relayInv_loadState s d h

theorem relayInv_run (s : Sched) (ops : List Op) (h : relayInv s) :
    relayInv (run s ops) := by
  induction ops generalizing s with
  | nil => exact h
  | cons op rest ih => exact ih (applyOp s op) (relayInv_applyOp s op h)

theorem relayInv_bootSched (hs : Bool) (nvs : NVS) :
    relayInv (bootSched hs nvs) := by
  simp [relayInv, bootSched]

end Stevebot

/-! ## Claim theorems: boot state, reachable-state invariant, MISTING exit -/

namespace Stevebot

/-- C5: immediately after process start — the constructor of `GPIORelayController`
drives the pin LOW and the constructor of `MistingScheduler` only
runs its member-initialiser list — the actuator output is off (and no
`turnOn` call has happened), for every content of the persistent store
and whether or not a store is attached. -/
theorem stevebot_c5_actuator_off_at_boot (hs : Bool) (nvs : NVS) :
    (bootSched hs nvs).relayOn = false ∧ (bootSched hs nvs).relayCalls = [] :=
  ⟨rfl, rfl⟩

/-- C2: after any sequence of `update()`, `setEnabled()`, `forceMist()`
and `loadState()` calls starting from construction, the actuator is on
if and only if the scheduler state is `MISTING`. -/
theorem stevebot_c2_actuator_iff_misting (hs : Bool) (nvs : NVS) (ops : List Op) :
    (run (bootSched hs nvs) ops).relayOn = true ↔
      (run (bootSched hs nvs) ops).currentState = MisterState.MISTING :=
  relayInv_run _ ops (relayInv_bootSched hs nvs)

/-- The scheduler state cited by C1: `MISTING`, enabled, storage
attached, activation began at uptime 0. -/
def c1FailState : Sched :=
  { currentState := MisterState.MISTING, lastMistEpoch := 1000,
    lastKnownEpoch := 0, mistStartTime := 0, hasEverMisted := true,
    schedulerEnabled := true, hasStorage := true, relayOn := true,
    relayCalls := [], storageWrites := [], logs := [] }

/-- A clock reading at which exactly 3× the activation duration
(75 000 ms) has elapsed since `c1FailState.mistStartTime`. -/
def c1FailClock : Clock :=
  { timeAvail := true, hour := 12, millis := 75000, epoch := 2000 }

/-- C1 (code bug): in state `MISTING` with elapsed uptime equal to 3× the
activation duration, `update()` does NOT take the failsafe path the code
itself announces in its comments (Safety failsafe ... do not save state): because the
code tests `elapsed >= MIST_DURATION` before `elapsed >= MIST_DURATION * 3`,
the failsafe branch is unreachable, and the normal stop path runs —
logging `MIST STOP` (not the critical failsafe line) and writing to
persistent storage. -/
theorem stevebot_c1_failsafe_branch_dead :
    sub32 c1FailClock.millis c1FailState.mistStartTime = 3 * MIST_DURATION ∧
    c1FailState.currentState = MisterState.MISTING ∧
    c1FailState.schedulerEnabled = true ∧
    (update c1FailState c1FailClock).currentState = MisterState.IDLE ∧
    (update c1FailState c1FailClock).relayOn = false ∧
    (update c1FailState c1FailClock).logs = [LogEvent.mistStop] ∧
    LogEvent.criticalFailsafe ∉ (update c1FailState c1FailClock).logs ∧
    (update c1FailState c1FailClock).storageWrites.length = 1 := by
  decide

/-- The scheduler state refuting C3 as stated: `MISTING` but with the
scheduler disabled. -/
def c3State : Sched :=
  { currentState := MisterState.MISTING, lastMistEpoch := 1000,
    lastKnownEpoch := 0, mistStartTime := 0, hasEverMisted := true,
    schedulerEnabled := false, hasStorage := true, relayOn := true,
    relayCalls := [], storageWrites := [], logs := [] }

/-- A clock reading at which the 25 000 ms duration has elapsed since
`c3State.mistStartTime`. -/
def c3Clock : Clock :=
  { timeAvail := true, hour := 12, millis := 25000, epoch := 2000 }

/-- C3 counterexample: in `MISTING` with the duration elapsed but the
scheduler disabled, `update()` returns without doing anything — the
state stays `MISTING`, the actuator stays on and nothing is persisted —
because `update()` begins with `if (!schedulerEnabled) return;`.  So the
duration-elapsed stop does NOT fire "regardless of the enabled flag". -/
theorem stevebot_c3_counterexample :
    c3State.currentState = MisterState.MISTING ∧
    MIST_DURATION ≤ sub32 c3Clock.millis c3State.mistStartTime ∧
    update c3State c3Clock = c3State ∧
    (update c3State c3Clock).currentState ≠ MisterState.IDLE ∧
    (update c3State c3Clock).relayOn = true ∧
    (update c3State c3Clock).storageWrites.length = 0 := by
  decide

/-- C3 (amended): for every `update()` call made in state `MISTING`
with the scheduler ENABLED, if the uptime elapsed since `mistStartTime`
is at least the 25 000 ms duration then `update()` turns the actuator
off, transitions to `IDLE`, and persists the state (one storage write,
when a store is attached). -/
theorem stevebot_c3_stop_on_duration (s : Sched) (c : Clock)
    (hen : s.schedulerEnabled = true)
    (hst : s.currentState = MisterState.MISTING)
    (hel : MIST_DURATION ≤ sub32 c.millis s.mistStartTime) :
    (update s c).relayOn = false ∧
    (update s c).currentState = MisterState.IDLE ∧
    (update s c).storageWrites.length
      = s.storageWrites.length + (if s.hasStorage then 1 else 0) := by
  unfold update
  split
  · rename_i hdis
    rw [hen] at hdis
    simp at hdis
  · dsimp only
    simp only [hst]
    rw [if_pos hel]
    refine ⟨?_, ?_, ?_⟩
    · rw [stopMisting, saveState_relayOn]
    · rw [stopMisting, saveState_currentState]
    · rw [stopMisting, saveState_storageWrites]
      dsimp only
      split <;> simp

/-- C3 witness: the amended theorem applied at a concrete enabled
`MISTING` state with exactly the duration elapsed. -/
theorem stevebot_c3_stop_on_duration_witness :
    (update c1FailState c3Clock).relayOn = false ∧
    (update c1FailState c3Clock).currentState = MisterState.IDLE ∧
    (update c1FailState c3Clock).storageWrites.length
      = c1FailState.storageWrites.length + (if c1FailState.hasStorage then 1 else 0) :=
  stevebot_c3_stop_on_duration c1FailState c3Clock (by decide) (by decide) (by decide)

end Stevebot

/-! ## Claim theorems: the activation predicate -/

namespace Stevebot

/-- The activation predicate exactly as C4 and the spec sentence state
it: window check (with a readable clock), state `IDLE`, and
(`hasEverActivated == false` OR `currentEpoch − lastActivationEpoch ≥
minimumIntervalSeconds`).  Written from the words of the spec, for
comparison with the `shouldStartMisting` of the source. -/
def shouldActivateSpec (s : Sched) (c : Clock) : Bool :=
  isInActiveWindow c && decide (s.currentState = MisterState.IDLE) &&
    (!s.hasEverMisted ||
      decide (MIST_INTERVAL_SECONDS ≤ c.epoch - s.lastMistEpoch))

/-- The state refuting C4 as stated: `IDLE`, `hasEverMisted = true`, but
`lastMistEpoch = 0`. -/
def c4State : Sched :=
  { currentState := MisterState.IDLE, lastMistEpoch := 0,
    lastKnownEpoch := 0, mistStartTime := 0, hasEverMisted := true,
    schedulerEnabled := true, hasStorage := true, relayOn := false,
    relayCalls := [], storageWrites := [], logs := [] }

/-- A clock reading inside the window with `currentEpoch −
lastActivationEpoch = 10000 ≥ 7200`. -/
def c4Clock : Clock :=
  { timeAvail := true, hour := 10, millis := 0, epoch := 10000 }

/-- C4 counterexample: in `IDLE`, inside the window, with
`hasEverMisted = true` and `currentEpoch − lastActivationEpoch =
10000 ≥ 7200`, the formula of the spec is satisfied, yet `shouldStartMisting`
returns false — the source has an additional guard
`if (currentEpoch == 0 || lastMistEpoch == 0) return false;` that the
claim omits, and here `lastMistEpoch = 0`. -/
theorem stevebot_c4_counterexample :
    c4State.currentState = MisterState.IDLE ∧
    c4State.hasEverMisted = true ∧
    isInActiveWindow c4Clock = true ∧
    MIST_INTERVAL_SECONDS ≤ c4Clock.epoch - c4State.lastMistEpoch ∧
    shouldActivateSpec c4State c4Clock = true ∧
    shouldStartMisting c4State c4Clock = false := by
  decide

/-- C4 (amended): `shouldStartMisting()` returns true exactly when the
hour satisfies `9 ≤ hour < 18` with a readable clock, the state is
`IDLE`, and either `hasEverMisted` is false, or BOTH the current epoch
and `lastMistEpoch` are nonzero AND `currentEpoch − lastMistEpoch ≥
7200` seconds. -/
theorem stevebot_c4_shouldStart_characterization (s : Sched) (c : Clock) :
    shouldStartMisting s c = true ↔
      (isInActiveWindow c = true ∧ s.currentState = MisterState.IDLE ∧
        (s.hasEverMisted = false ∨
          (c.epoch ≠ 0 ∧ s.lastMistEpoch ≠ 0 ∧
            MIST_INTERVAL_SECONDS ≤ c.epoch - s.lastMistEpoch))) := by
  unfold shouldStartMisting
  by_cases hw : isInActiveWindow c = true <;>
    by_cases hid : s.currentState = MisterState.IDLE <;>
      by_cases hev : s.hasEverMisted = true <;>
        by_cases hz : c.epoch = 0 ∨ s.lastMistEpoch = 0 <;>
          simp [hw, hid, hev, hz] <;> tauto

/-- C8: in every state with `hasEverMisted = true` and
`lastMistEpoch = 0`, `shouldStartMisting()` returns false for every
clock reading (blocked by the `lastMistEpoch == 0` guard); and such a
state is produced by `setEnabled(true)` in `WAITING_SYNC` with the clock
available, which transitions to `IDLE` and resets `lastMistEpoch` to 0
while leaving `hasEverMisted` untouched. -/
theorem stevebot_c8_zero_epoch_blocks_auto_start :
    (∀ (s : Sched) (c : Clock), s.hasEverMisted = true →
      s.lastMistEpoch = 0 → shouldStartMisting s c = false) ∧
    (∀ (s : Sched) (c : Clock), s.currentState = MisterState.WAITING_SYNC →
      c.timeAvail = true →
        (setEnabled s c true).lastMistEpoch = 0 ∧
        (setEnabled s c true).hasEverMisted = s.hasEverMisted ∧
        (setEnabled s c true).currentState = MisterState.IDLE) := by
  constructor
  · intro s c hev h0
    unfold shouldStartMisting
    by_cases hw : isInActiveWindow c = true <;>
      by_cases hid : s.currentState = MisterState.IDLE <;>
        simp [hw, hid, hev, h0]
  · intro s c hws hav
    unfold setEnabled
    dsimp only
    rw [if_pos ⟨rfl, hws⟩, if_pos hav]
    simp

/-- C8 witness: both parts applied at concrete states — the state
`setEnabled(true)` produces from `WAITING_SYNC` (with `hasEverMisted`
set) is exactly one in which `shouldStartMisting` is blocked. -/
theorem stevebot_c8_witness :
    shouldStartMisting c4State c4Clock = false ∧
    (setEnabled { c4State with currentState := MisterState.WAITING_SYNC }
        c4Clock true).lastMistEpoch = 0 :=
  ⟨stevebot_c8_zero_epoch_blocks_auto_start.1 c4State c4Clock (by decide) (by decide),
   (stevebot_c8_zero_epoch_blocks_auto_start.2
      { c4State with currentState := MisterState.WAITING_SYNC }
      c4Clock (by decide) (by decide)).1⟩

end Stevebot

/-! ## Claim theorems: manual-override rejection and write discipline -/

namespace Stevebot

/-- C6: `forceMist()` called while `MISTING`, or while disabled, is an
atomic rejection: state, `lastMistEpoch`, `hasEverMisted`, the actuator
level, the relay-call trace and the storage-write trace are all
unchanged, and the only effect is one error log line. -/
theorem stevebot_c6_force_reject_atomic (s : Sched) (c : Clock)
    (h : s.currentState = MisterState.MISTING ∨ s.schedulerEnabled = false) :
    (forceMist s c).currentState = s.currentState ∧
    (forceMist s c).lastMistEpoch = s.lastMistEpoch ∧
    (forceMist s c).hasEverMisted = s.hasEverMisted ∧
    (forceMist s c).relayOn = s.relayOn ∧
    (forceMist s c).relayCalls = s.relayCalls ∧
    (forceMist s c).storageWrites = s.storageWrites ∧
    (forceMist s c).logs = s.logs ++
      [if s.currentState = MisterState.MISTING then LogEvent.errAlreadyMisting
       else LogEvent.errDisabledForce] := by
  unfold forceMist
  by_cases hm : s.currentState = MisterState.MISTING
  · rw [if_pos hm]
    simp [hm]
  · rw [if_neg hm]
    have hd : s.schedulerEnabled = false := h.resolve_left hm
    rw [hd]
    simp [hm]

/-- C6 witness: the rejection theorem applied at a concrete `MISTING`
state. -/
theorem stevebot_c6_witness :
    (forceMist c1FailState c1FailClock).currentState = c1FailState.currentState ∧
    (forceMist c1FailState c1FailClock).lastMistEpoch = c1FailState.lastMistEpoch ∧
    (forceMist c1FailState c1FailClock).hasEverMisted = c1FailState.hasEverMisted ∧
    (forceMist c1FailState c1FailClock).relayOn = c1FailState.relayOn ∧
    (forceMist c1FailState c1FailClock).relayCalls = c1FailState.relayCalls ∧
    (forceMist c1FailState c1FailClock).storageWrites = c1FailState.storageWrites ∧
    (forceMist c1FailState c1FailClock).logs = c1FailState.logs ++
      [if c1FailState.currentState = MisterState.MISTING then LogEvent.errAlreadyMisting
       else LogEvent.errDisabledForce] :=
  stevebot_c6_force_reject_atomic c1FailState c1FailClock (Or.inl (by decide))

/-- C7: with a store attached, exactly one storage write happens at the
normal duration-elapsed stop of an activation (and `update()` writes in
no other case, in particular not when it starts an activation), exactly
one write happens on every `setEnabled()` call, and `forceMist()` (which
starts but never completes a cycle) and `loadState()` never write. -/
theorem stevebot_c7_write_discipline (s : Sched) (c : Clock) (b : Bool)
    (d : StoreReads) (hs : s.hasStorage = true) :
    (update s c).storageWrites.length = s.storageWrites.length +
      (if s.schedulerEnabled = true ∧ s.currentState = MisterState.MISTING ∧
          MIST_DURATION ≤ sub32 c.millis s.mistStartTime then 1 else 0) ∧
    (setEnabled s c b).storageWrites.length = s.storageWrites.length + 1 ∧
    (forceMist s c).storageWrites.length = s.storageWrites.length ∧
    (loadState s d).storageWrites.length = s.storageWrites.length := by
  refine ⟨?_, ?_, ?_, ?_⟩
  · unfold update
    split
    · rename_i hdis
      have hd : s.schedulerEnabled = false := by simpa using hdis
      simp [hd]
    · rename_i hen'
      have hen : s.schedulerEnabled = true := by simpa using hen'
      dsimp only
      rcases hst : s.currentState with _ | _ | _
      · simp only [hst]
        split
        · split
          · simp [startMisting, hst]
          · simp [hst]
        · simp [hst]
      · simp only [hst]
        split
        · simp [startMisting, hst]
        · simp [hst]
      · simp only [hst]
        split
        · rename_i hdur
          rw [stopMisting, saveState_storageWrites]
          dsimp only
          simp [hs, hen, hst, hdur]
        · rename_i hdur
          split
          · simp [hst, hen, hdur]
          · simp [hst, hen, hdur]
  · unfold setEnabled
    dsimp only
    split
    · split <;> (rw [saveState_storageWrites]; dsimp only; simp [hs])
    · split <;> (rw [saveState_storageWrites]; dsimp only; simp [hs])
  · unfold forceMist
    split
    · simp
    · split
      · simp
      · simp [startMisting]
  · unfold loadState
    rw [if_pos hs]
    dsimp only
    split <;> simp

/-- C7 witness: the write-discipline theorem at a concrete state with a
store attached. -/
theorem stevebot_c7_witness :
    (update c1FailState c1FailClock).storageWrites.length
      = c1FailState.storageWrites.length +
        (if c1FailState.schedulerEnabled = true ∧
            c1FailState.currentState = MisterState.MISTING ∧
            MIST_DURATION ≤ sub32 c1FailClock.millis c1FailState.mistStartTime
         then 1 else 0) ∧
    (setEnabled c1FailState c1FailClock false).storageWrites.length
      = c1FailState.storageWrites.length + 1 ∧
    (forceMist c1FailState c1FailClock).storageWrites.length
      = c1FailState.storageWrites.length ∧
    (loadState c1FailState ⟨0, false, true⟩).storageWrites.length
      = c1FailState.storageWrites.length :=
  stevebot_c7_write_discipline c1FailState c1FailClock false ⟨0, false, true⟩ (by decide)

end Stevebot

/-! ## Claim theorems: NVS read defaults -/

namespace Stevebot

/-- C9: whenever the NVS namespace fails to open, or no value is stored
under any of the three keys, the `NVSStateStorage` getters return the
safe defaults — `getEnabled` true, `getHasEverMisted` false,
`getLastMistTime` 0 — and `loadState()` backed by that store adopts
`enabled = true`, `hasEverMisted = false`, `lastMistEpoch = 0`. -/
theorem stevebot_c9_safe_defaults (n : NVS) (s : Sched)
    (hfail : n.openOk = false ∨
      (n.lastMist = none ∧ n.hasEverM = none ∧ n.enabledV = none))
    (hs : s.hasStorage = true) :
    n.getEnabled = true ∧ n.getHasEverMisted = false ∧ n.getLastMistTime = 0 ∧
    (loadState s n.storeReads).schedulerEnabled = true ∧
    (loadState s n.storeReads).hasEverMisted = false ∧
    (loadState s n.storeReads).lastMistEpoch = 0 := by
  have hL : n.getLastMistTime = 0 := by
    rcases hfail with h | ⟨h1, h2, h3⟩ <;> simp [NVS.getLastMistTime, *]
  have hH : n.getHasEverMisted = false := by
    rcases hfail with h | ⟨h1, h2, h3⟩ <;> simp [NVS.getHasEverMisted, *]
  have hE : n.getEnabled = true := by
    rcases hfail with h | ⟨h1, h2, h3⟩ <;> simp [NVS.getEnabled, *]
  refine ⟨hE, hH, hL, ?_, ?_, ?_⟩ <;>
    simp [loadState, NVS.storeReads, hL, hH, hE, hs]

/-- C9 witness: the defaults theorem applied to a store whose namespace
fails to open, loading into a state whose fields all differ from the
defaults. -/
theorem stevebot_c9_witness :
    (NVS.mk false (some 99) (some true) (some false)).getEnabled = true ∧
    (NVS.mk false (some 99) (some true) (some false)).getHasEverMisted = false ∧
    (NVS.mk false (some 99) (some true) (some false)).getLastMistTime = 0 ∧
    (loadState c4State (NVS.mk false (some 99) (some true) (some false)).storeReads).schedulerEnabled = true ∧
    (loadState c4State (NVS.mk false (some 99) (some true) (some false)).storeReads).hasEverMisted = false ∧
    (loadState c4State (NVS.mk false (some 99) (some true) (some false)).storeReads).lastMistEpoch = 0 :=
  stevebot_c9_safe_defaults (NVS.mk false (some 99) (some true) (some false))
    c4State (Or.inl rfl) (by decide)

end Stevebot

/-! ## Claim theorems: serial command routing -/

namespace Stevebot

/-- `isspace` characters trimmed by Arduino `String::trim()`. -/
def isSpaceChar (ch : Char) : Bool :=
  ch = ' ' || ch = '\t' || ch = '\n' || ch = '\x0b' || ch = '\x0c' || ch = '\r'

/-- `String::trim()`: drop leading and trailing whitespace. -/
def trimAscii (l : List Char) : List Char :=
  ((l.dropWhile isSpaceChar).reverse.dropWhile isSpaceChar).reverse

/-- `String::toUpperCase()` on one character (ASCII case fold). -/
def upperAscii (ch : Char) : Char :=
  if 'a' ≤ ch ∧ ch ≤ 'z' then Char.ofNat (ch.toNat - 32) else ch

/-- The command token `processSerialCommands` compares against: the
serial line after `cmd.trim()` and `cmd.toUpperCase()`. -/
def canonCmd (line : List Char) : List Char :=
  (trimAscii line).map upperAscii

/-- Which core method (if any) the host loop invokes for one serial
line: each constructor stands for the call in the corresponding branch
of `processSerialCommands` in `main.cpp`. -/
inductive HostAction
  | callSetEnabledTrue
  | callSetEnabledFalse
  | callForceMist
  | callPrintStatus
  | ignoreLine
  | unknownCmd (cmd : List Char)
deriving DecidableEq, Repr

/-- The dispatch chain of `processSerialCommands` in `main.cpp`: trim
and upper-case the line, then compare against `"ENABLE"`, `"DISABLE"`,
`"FORCE_MIST"`, `"STATUS"`; non-empty unmatched tokens answer
`ERROR: Unknown command`, empty lines do nothing. -/
def processSerialLine (line : List Char) : HostAction :=
  let cmd := canonCmd line
  if cmd = "ENABLE".toList then HostAction.callSetEnabledTrue
  else if cmd = "DISABLE".toList then HostAction.callSetEnabledFalse
  else if cmd = "FORCE_MIST".toList then HostAction.callForceMist
  else if cmd = "STATUS".toList then HostAction.callPrintStatus
  else if 0 < cmd.length then HostAction.unknownCmd cmd
  else HostAction.ignoreLine

/-- C10 counterexample: the token the spec names, `FORCE_TRIGGER`, is
NOT routed to the force-trigger method — `main.cpp` compares against
`"FORCE_MIST"` — so a `FORCE_TRIGGER` line falls through to the
`ERROR: Unknown command` branch. -/
theorem stevebot_c10_counterexample :
    processSerialLine ("FORCE_TRIGGER".toList)
      = HostAction.unknownCmd ("FORCE_TRIGGER".toList) ∧
    processSerialLine ("FORCE_TRIGGER".toList) ≠ HostAction.callForceMist := by
  refine ⟨by decide, by decide⟩

/-- C10 (amended): after trimming and ASCII case-folding, the host loop
routes `ENABLE` to `setEnabled(true)`, `DISABLE` to `setEnabled(false)`,
`FORCE_MIST` (the name the code gives the force-trigger command) to
`forceMist()`, and `STATUS` to the status printer; it ignores lines that
trim to empty and answers every other non-empty token with
`ERROR: Unknown command`. -/
theorem stevebot_c10_serial_routing (line : List Char) :
    (canonCmd line = "ENABLE".toList →
      processSerialLine line = HostAction.callSetEnabledTrue) ∧
    (canonCmd line = "DISABLE".toList →
      processSerialLine line = HostAction.callSetEnabledFalse) ∧
    (canonCmd line = "FORCE_MIST".toList →
      processSerialLine line = HostAction.callForceMist) ∧
    (canonCmd line = "STATUS".toList →
      processSerialLine line = HostAction.callPrintStatus) ∧
    (canonCmd line = [] → processSerialLine line = HostAction.ignoreLine) ∧
    (canonCmd line ≠ "ENABLE".toList → canonCmd line ≠ "DISABLE".toList →
     canonCmd line ≠ "FORCE_MIST".toList → canonCmd line ≠ "STATUS".toList →
     canonCmd line ≠ [] →
      processSerialLine line = HostAction.unknownCmd (canonCmd line)) := by
  unfold processSerialLine
  dsimp only
  refine ⟨?_, ?_, ?_, ?_, ?_, ?_⟩
  · intro h; rw [h]; decide
  · intro h; rw [h]; decide
  · intro h; rw [h]; decide
  · intro h; rw [h]; decide
  · intro h; rw [h]; decide
  · intro h1 h2 h3 h4 h5
    rw [if_neg h1, if_neg h2, if_neg h3, if_neg h4,
        if_pos (List.length_pos.mpr h5)]

/-- C10 witness: the routing theorem applied to the concrete lowercase,
space-padded line `" enable "`, whose canonical token is `ENABLE`. -/
theorem stevebot_c10_witness :
    canonCmd (" enable ".toList) = "ENABLE".toList ∧
    processSerialLine (" enable ".toList) = HostAction.callSetEnabledTrue :=
  ⟨by decide, (stevebot_c10_serial_routing (" enable ".toList)).1 (by decide)⟩

end Stevebot
